import Mathlib

/-!
Verification of the book-recommender core (user-based collaborative filtering).

The Python data model `ratings[user_id][item_id] = rating` (nested dicts) is
embedded as insertion-ordered association lists; Python `set`s of item ids are
embedded as `Finset String`; `float` arithmetic is embedded as real arithmetic;
a Python function that can raise is embedded as an `Except String` value.

Namespace `Core` embeds `src/core/similarity.py` and `src/core/engine.py`;
namespace `Recommender` embeds the near-duplicate engine in
`src/src/recommender/similarity.py` and `src/src/recommender/engine.py`.
-/

/-- Ratings of one user: `item_id → rating`, an insertion-ordered association
list modelling an inner Python dict (`Dict[str, float]`). -/
abbrev ItemRatings := List (String × ℝ)

/-- `ratings[user_id][item_id] = rating`: an insertion-ordered association list
modelling the outer Python dict (`Dict[str, Dict[str, float]]`). -/
abbrev RatingsDict := List (String × ItemRatings)

/-- Models Python `str.lower()` (ASCII case folding, which covers every metric
identifier occurring in this development). -/
def strLower (s : String) : String := ⟨s.data.map Char.toLower⟩

/-- Models the Python dict lookup `d.get(k)` on an association-list dict:
the value at the first occurrence of the key, if any. -/
def lookupFst {α : Type} : List (String × α) → String → Option α
  | [], _ => none
  | (k, v) :: rest, key => if k = key then some v else lookupFst rest key

/-- Models `set(d.keys())` for an association-list dict. -/
def keySet {α : Type} (l : List (String × α)) : Finset String :=
  (l.map Prod.fst).toFinset

/-- Models the Python subscript `items[i]` on an inner dict. It is total, with
default `0`; every use site below only applies it to keys of `items`. -/
noncomputable def ratingOf (items : ItemRatings) (i : String) : ℝ :=
  ((lookupFst items i).getD 0 : ℝ)

/-- Models the Python dict assignment
`scores[k] = scores.get(k, 0.0) + v`: if `k` is already a key its value is
updated in place (keeping its position), otherwise `(k, v)` is appended. -/
noncomputable def updateAdd : List (String × ℝ) → String → ℝ → List (String × ℝ)
  | [], k, v => [(k, v)]
  | (k', v') :: rest, k, v =>
    if k' = k then (k', v' + v) :: rest else (k', v') :: updateAdd rest k v

namespace Core

/-- `cosine_similarity` from `src/core/similarity.py`: cosine similarity of two
users over the items rated by both (`set(items1) & set(items2)`), returning `0`
when there are no common items or when either restricted magnitude is `0`. -/
noncomputable def cosine_similarity (ratings : RatingsDict) (user1 user2 : String) : ℝ :=
  let items1 := (lookupFst ratings user1).getD []
  let items2 := (lookupFst ratings user2).getD []
  let common_items := keySet items1 ∩ keySet items2
  if common_items = ∅ then 0
  else
    let dot := ∑ i ∈ common_items, ratingOf items1 i * ratingOf items2 i
    let mag1 := Real.sqrt (∑ i ∈ common_items, ratingOf items1 i ^ 2)
    let mag2 := Real.sqrt (∑ i ∈ common_items, ratingOf items2 i ^ 2)
    if mag1 = 0 ∨ mag2 = 0 then 0
    else dot / (mag1 * mag2)

/-- `_liked_items` from `src/core/similarity.py`: the set of item ids of
`ratings.get(user, {})` whose rating is strictly above `threshold`. -/
noncomputable def _liked_items (ratings : RatingsDict) (user : String) (threshold : ℝ) :
    Finset String :=
  keySet (((lookupFst ratings user).getD []).filter (fun p => decide (threshold < p.2)))

/-- `jaccard_similarity` from `src/core/similarity.py`: Jaccard similarity of
the two users' liked-item sets, `0` when both sets are empty or the union is
empty. -/
noncomputable def jaccard_similarity (ratings : RatingsDict) (user1 user2 : String)
    (threshold : ℝ := 0) : ℝ :=
  let set1 := _liked_items ratings user1 threshold
  let set2 := _liked_items ratings user2 threshold
  if set1 = ∅ ∧ set2 = ∅ then 0
  else
    let inter := (set1 ∩ set2).card
    let union := (set1 ∪ set2).card
    if union = 0 then 0
    else (inter : ℝ) / (union : ℝ)

/-- `RecommenderEngine._get_similarity_function` from `src/core/engine.py`:
the metric string is lowercased, then dispatched to `cosine_similarity` or to
`jaccard_similarity` with the bound threshold; any other identifier raises
`ValueError` (modelled as `Except.error`) whose message uses the lowercased
metric (the Python code rebinds `metric = metric.lower()` first). -/
noncomputable def _get_similarity_function (metric : String) (jaccard_threshold : ℝ := 0) :
    Except String (RatingsDict → String → String → ℝ) :=
  let metricLow := strLower metric
  if metricLow = "cosine" then .ok cosine_similarity
  else if metricLow = "jaccard" then
    .ok (fun r u1 u2 => jaccard_similarity r u1 u2 jaccard_threshold)
  else .error ("Unknown similarity metric: " ++ metricLow)

/-- `RecommenderEngine._compute_similarities` from `src/core/engine.py`:
returns `{}` when the target is not a key of `ratings`; otherwise iterates the
users in dict order, skips the target, and keeps `(other, s)` exactly when the
computed similarity `s` is strictly positive. -/
noncomputable def _compute_similarities (ratings : RatingsDict) (target_user : String)
    (metric : String) (jaccard_threshold : ℝ := 0) :
    Except String (List (String × ℝ)) :=
  if target_user ∉ ratings.map Prod.fst then .ok []
  else
    match _get_similarity_function metric jaccard_threshold with
    | .error e => .error e
    | .ok sim_func =>
    .ok ((ratings.map Prod.fst).filterMap (fun other =>
      if other = target_user then none
      else
        let s := sim_func ratings target_user other
        if 0 < s then some (other, s) else none))

/-- `RecommenderEngine.recommend_for_user` from `src/core/engine.py`: empty
list for an absent target; otherwise neighbours with positive similarity are
sorted by similarity descending (Python's stable `sorted` with `reverse=True`),
optionally truncated to `k_neighbours`, their ratings of items the target has
not interacted with (`target_ratings.get(item, 0) == 0`) are aggregated as
`sim * rating` into a dict keyed by item, and the result is sorted by score
descending and truncated to `max_results`. -/
noncomputable def recommend_for_user (ratings : RatingsDict) (target_user : String)
    (metric : String := "cosine") (k_neighbours : Option ℕ := none)
    (max_results : ℕ := 12) (jaccard_threshold : ℝ := 0) :
    Except String (List (String × ℝ)) :=
  if target_user ∉ ratings.map Prod.fst then .ok []
  else
    match _compute_similarities ratings target_user metric jaccard_threshold with
    | .error e => .error e
    | .ok similarities =>
    if similarities.isEmpty then .ok []
    else
      let neighbours := similarities.mergeSort (fun a b => decide (b.2 ≤ a.2))
      let neighbours :=
        match k_neighbours with
        | some k => neighbours.take k
        | none => neighbours
      let target_ratings := (lookupFst ratings target_user).getD []
      let scores :=
        neighbours.foldl (fun scores nb =>
          ((lookupFst ratings nb.1).getD []).foldl (fun scores ir =>
            if (lookupFst target_ratings ir.1).getD 0 = 0
            then updateAdd scores ir.1 (nb.2 * ir.2)
            else scores) scores) []
      let ranked := scores.mergeSort (fun a b => decide (b.2 ≤ a.2))
      .ok (ranked.take max_results)

/-- `RecommenderEngine.user_similarity` from `src/core/engine.py`: dispatches
on the metric string exactly as written (no lowercasing), calling the
standalone similarity functions (Jaccard with its default threshold `0.0`);
any other string raises `ValueError` with the original metric string. -/
noncomputable def user_similarity (ratings : RatingsDict) (user1 user2 : String)
    (metric : String := "cosine") : Except String ℝ :=
  if metric = "cosine" then .ok (cosine_similarity ratings user1 user2)
  else if metric = "jaccard" then .ok (jaccard_similarity ratings user1 user2 0)
  else .error ("Unknown similarity metric: " ++ metric)

end Core

namespace Recommender

/-- `cosine_similarity` from `src/src/recommender/similarity.py`. The Python
code indexes `ratings[user1]` directly (a `KeyError` on an absent user); it is
modelled totally with default `[]`, which its only caller, the engine below,
never exercises because it validates user existence first. -/
noncomputable def cosine_similarity (ratings : RatingsDict) (user1 user2 : String) : ℝ :=
  let items1 := (lookupFst ratings user1).getD []
  let items2 := (lookupFst ratings user2).getD []
  let common_books := keySet items1 ∩ keySet items2
  if common_books = ∅ then 0
  else
    let dot_product := ∑ i ∈ common_books, ratingOf items1 i * ratingOf items2 i
    let magnitude1 := Real.sqrt (∑ i ∈ common_books, ratingOf items1 i ^ 2)
    let magnitude2 := Real.sqrt (∑ i ∈ common_books, ratingOf items2 i ^ 2)
    if magnitude1 = 0 ∨ magnitude2 = 0 then 0
    else dot_product / (magnitude1 * magnitude2)

/-- `_user_book_set` from `src/src/recommender/similarity.py` (same direct
indexing caveat as `cosine_similarity` above). -/
noncomputable def _user_book_set (ratings : RatingsDict) (user : String)
    (positive_threshold : ℝ) : Finset String :=
  keySet (((lookupFst ratings user).getD []).filter (fun p => decide (positive_threshold < p.2)))

/-- `jaccard_similarity` from `src/src/recommender/similarity.py`. -/
noncomputable def jaccard_similarity (ratings : RatingsDict) (user1 user2 : String)
    (positive_threshold : ℝ := 0) : ℝ :=
  let set1 := _user_book_set ratings user1 positive_threshold
  let set2 := _user_book_set ratings user2 positive_threshold
  if set1 = ∅ ∧ set2 = ∅ then 0
  else
    let intersection := (set1 ∩ set2).card
    let union := (set1 ∪ set2).card
    if union = 0 then 0
    else (intersection : ℝ) / (union : ℝ)

/-- `RecommenderEngine._get_similarity_function` from
`src/src/recommender/engine.py`: like the core version, but the `ValueError`
message interpolates the original (un-lowercased) metric string. -/
noncomputable def _get_similarity_function (metric : String) (positive_threshold : ℝ := 0) :
    Except String (RatingsDict → String → String → ℝ) :=
  let metric_lower := strLower metric
  if metric_lower = "cosine" then .ok cosine_similarity
  else if metric_lower = "jaccard" then
    .ok (fun r u1 u2 => jaccard_similarity r u1 u2 positive_threshold)
  else .error ("Unknown similarity metric: " ++ metric)

/-- `RecommenderEngine._compute_similarities` from
`src/src/recommender/engine.py`: unlike the core version, an absent target
user raises `ValueError(f"Unknown user: {target_user}")`. -/
noncomputable def _compute_similarities (ratings : RatingsDict) (target_user : String)
    (metric : String := "cosine") (positive_threshold : ℝ := 0) :
    Except String (List (String × ℝ)) :=
  if target_user ∉ ratings.map Prod.fst then .error ("Unknown user: " ++ target_user)
  else
    match _get_similarity_function metric positive_threshold with
    | .error e => .error e
    | .ok similarity_func =>
    .ok ((ratings.map Prod.fst).filterMap (fun user_id =>
      if user_id = target_user then none
      else
        let sim := similarity_func ratings target_user user_id
        if 0 < sim then some (user_id, sim) else none))

/-- `RecommenderEngine.recommend_for_user` from `src/src/recommender/engine.py`:
raises `ValueError(f"Unknown user: {target_user}")` for an absent target
(both directly and inside `_compute_similarities`); otherwise the same
pipeline as the core engine, with default `max_results = 5` and a
`max_results is not None` guard before the final truncation. -/
noncomputable def recommend_for_user (ratings : RatingsDict) (target_user : String)
    (metric : String := "cosine") (k_neighbours : Option ℕ := none)
    (max_results : Option ℕ := some 5) (positive_threshold : ℝ := 0) :
    Except String (List (String × ℝ)) :=
  if target_user ∉ ratings.map Prod.fst then .error ("Unknown user: " ++ target_user)
  else
    match _compute_similarities ratings target_user metric positive_threshold with
    | .error e => .error e
    | .ok similarities =>
    if similarities.isEmpty then .ok []
    else
      let similar_users := similarities.mergeSort (fun a b => decide (b.2 ≤ a.2))
      let similar_users :=
        match k_neighbours with
        | some k => similar_users.take k
        | none => similar_users
      let target_ratings := (lookupFst ratings target_user).getD []
      let scores :=
        similar_users.foldl (fun scores nb =>
          ((lookupFst ratings nb.1).getD []).foldl (fun scores ir =>
            if (lookupFst target_ratings ir.1).getD 0 = 0
            then updateAdd scores ir.1 (nb.2 * ir.2)
            else scores) scores) []
      let ranked_books := scores.mergeSort (fun a b => decide (b.2 ≤ a.2))
      let ranked_books :=
        match max_results with
        | some n => ranked_books.take n
        | none => ranked_books
      .ok ranked_books

end Recommender

/-- The concrete snapshot of the spec's test scenario:
`{"Alice": {"b1": 5, "b2": 3}, "Bob": {"b1": 5, "b2": 3, "b3": 4}, "Carl": {"b3": 1}}`. -/
noncomputable def specSnapshot : RatingsDict :=
  [("Alice", [("b1", 5), ("b2", 3)]),
   ("Bob", [("b1", 5), ("b2", 3), ("b3", 4)]),
   ("Carl", [("b3", 1)])]

lemma cosine_specSnapshot_Alice_Bob :
    Core.cosine_similarity specSnapshot "Alice" "Bob" = 1 := by
  have hcommon : keySet ([("b1", (5:ℝ)), ("b2", 3)]) ∩
      keySet ([("b1", (5:ℝ)), ("b2", 3), ("b3", 4)]) = {"b1", "b2"} := by decide
  rw [Core.cosine_similarity]
  simp +decide [specSnapshot, lookupFst, hcommon, ratingOf]
  rw [if_neg]
  · rw [show ((5:ℝ) * 5 + 3 * 3) = 34 by norm_num]
    rw [Real.mul_self_sqrt (by norm_num)]
    norm_num
  · positivity

lemma cosine_specSnapshot_Alice_Carl :
    Core.cosine_similarity specSnapshot "Alice" "Carl" = 0 := by
  rw [Core.cosine_similarity]
  simp +decide [specSnapshot, lookupFst]

lemma recommend_specSnapshot_Alice :
    Core.recommend_for_user specSnapshot "Alice" "cosine" none 5 0 = .ok [("b3", 4)] := by
  have hAB := cosine_specSnapshot_Alice_Bob
  have hAC := cosine_specSnapshot_Alice_Carl
  rw [Core.recommend_for_user, Core._compute_similarities, Core._get_similarity_function]
  simp only [specSnapshot] at hAB hAC
  norm_num +decide [specSnapshot, strLower, lookupFst, hAB, hAC, updateAdd,
    List.filterMap_cons, List.filterMap_nil, List.foldl_cons, List.foldl_nil]

/-- **C1.** On the spec's concrete snapshot, the cosine similarity of Alice and
Bob is exactly `1`, and `recommend_for_user("Alice", metric="cosine",
kNeighbours=None, maxResults=5)` returns exactly `[("b3", 4.0)]`. -/
theorem c1_concrete_scenario :
    Core.cosine_similarity specSnapshot "Alice" "Bob" = 1 ∧
    Core.recommend_for_user specSnapshot "Alice" "cosine" none 5 0 = .ok [("b3", 4)] :=
  ⟨cosine_specSnapshot_Alice_Bob, recommend_specSnapshot_Alice⟩

/-- **C2 (counterexample).** The claim says `recommend_for_user` with an
absent target "returns an empty result rather than raising an error"; the
engine in `src/src/recommender/engine.py` raises `ValueError("Unknown user:
Zed")` on the concrete absent user `"Zed"`. -/
theorem c2_counterexample_recsrc_engine_raises :
    Recommender.recommend_for_user specSnapshot "Zed" "cosine" none (some 5) 0 =
      .error "Unknown user: Zed" := by
  rw [Recommender.recommend_for_user, if_pos (by decide)]
  exact congrArg Except.error (by decide)

/-- **C2 (amended).** The two engines disagree on the absent-target policy:
`src/core/engine.py` returns the empty list for every snapshot and metric,
while `src/src/recommender/engine.py` raises `Unknown user` for every snapshot
and metric. -/
theorem c2_amended_absent_user_policies :
    (∀ (ratings : RatingsDict) (target metric : String) (k : Option ℕ) (m : ℕ) (thr : ℝ),
      target ∉ ratings.map Prod.fst →
      Core.recommend_for_user ratings target metric k m thr = .ok []) ∧
    (∀ (ratings : RatingsDict) (target metric : String) (k : Option ℕ) (m : Option ℕ) (thr : ℝ),
      target ∉ ratings.map Prod.fst →
      Recommender.recommend_for_user ratings target metric k m thr =
        .error ("Unknown user: " ++ target)) := by
  constructor
  · intro ratings target metric k m thr h
    rw [Core.recommend_for_user, if_pos h]
  · intro ratings target metric k m thr h
    rw [Recommender.recommend_for_user, if_pos h]

theorem c2_amended_absent_user_policies_witness :
    Core.recommend_for_user specSnapshot "Zed" "cosine" none 12 0 = .ok [] ∧
    Recommender.recommend_for_user specSnapshot "Zed" "jaccard" none (some 5) 0 =
      .error ("Unknown user: " ++ "Zed") :=
  ⟨c2_amended_absent_user_policies.1 specSnapshot "Zed" "cosine" none 12 0 (by decide),
   c2_amended_absent_user_policies.2 specSnapshot "Zed" "jaccard" none (some 5) 0 (by decide)⟩

/-- **C3 (counterexample).** The claim says an unsupported metric always
raises for `recommend_for_user`; but with the unsupported metric `"pearson"`
and the absent target `"Zed"`, `src/core/engine.py` returns `ok []` without
any error. -/
theorem c3_counterexample_absent_target_skips_validation :
    Core.recommend_for_user specSnapshot "Zed" "pearson" none 12 0 = .ok [] := by
  rw [Core.recommend_for_user, if_pos (by decide)]

/-- **C3 (amended).** An unsupported metric (lowercased form outside
`{"cosine","jaccard"}`) raises `UnsupportedMetric` (`ValueError`) in
`recommend_for_user` whenever the target user is present in the snapshot, and
in `user_similarity` (which matches the string exactly) always; it is never
silently defaulted. (When the target is absent, `recommend_for_user` returns
`[]` before validating the metric — see C10.) -/
theorem c3_amended_unsupported_metric_raises :
    (∀ (ratings : RatingsDict) (target metric : String) (k : Option ℕ) (m : ℕ) (thr : ℝ),
      strLower metric ≠ "cosine" → strLower metric ≠ "jaccard" →
      target ∈ ratings.map Prod.fst →
      Core.recommend_for_user ratings target metric k m thr =
        .error ("Unknown similarity metric: " ++ strLower metric)) ∧
    (∀ (ratings : RatingsDict) (u1 u2 metric : String),
      metric ≠ "cosine" → metric ≠ "jaccard" →
      Core.user_similarity ratings u1 u2 metric =
        .error ("Unknown similarity metric: " ++ metric)) := by
  constructor
  · intro ratings target metric k m thr h1 h2 htarget
    rw [Core.recommend_for_user, if_neg (not_not_intro htarget),
      Core._compute_similarities, if_neg (not_not_intro htarget),
      Core._get_similarity_function]
    simp [h1, h2]
  · intro ratings u1 u2 metric h1 h2
    rw [Core.user_similarity, if_neg h1, if_neg h2]

theorem c3_amended_unsupported_metric_raises_witness :
    Core.recommend_for_user specSnapshot "Alice" "pearson" none 12 0 =
      .error ("Unknown similarity metric: " ++ strLower "pearson") ∧
    Core.user_similarity specSnapshot "Alice" "Bob" "pearson" =
      .error ("Unknown similarity metric: " ++ "pearson") :=
  ⟨c3_amended_unsupported_metric_raises.1 specSnapshot "Alice" "pearson" none 12 0
      (by decide) (by decide) (by decide),
   c3_amended_unsupported_metric_raises.2 specSnapshot "Alice" "Bob" "pearson"
      (by decide) (by decide)⟩

/-- **C10.** For every snapshot and every metric string — including
unsupported ones such as `"pearson"` — when the target user is absent from the
snapshot, `src/core/engine.py`'s `recommend_for_user` returns the empty list
without raising: the metric is only validated when the target exists. -/
theorem c10_absent_target_empty_before_metric_validation :
    ∀ (ratings : RatingsDict) (target metric : String) (k : Option ℕ) (m : ℕ) (thr : ℝ),
      target ∉ ratings.map Prod.fst →
      Core.recommend_for_user ratings target metric k m thr = .ok [] := by
  intro ratings target metric k m thr h
  rw [Core.recommend_for_user, if_pos h]

theorem c10_absent_target_empty_before_metric_validation_witness :
    Core.recommend_for_user specSnapshot "Zed" "pearson" none 5 0 = .ok [] :=
  c10_absent_target_empty_before_metric_validation specSnapshot "Zed" "pearson" none 5 0
    (by decide)

/-- **C9 (counterexample).** The claim says metric matching is
case-insensitive for both operations; but `user_similarity` compares the
metric string without lowercasing: `"Cosine"` raises `ValueError` while
`"cosine"` returns the cosine score (`1` for Alice/Bob on the spec snapshot),
so the two spellings do not produce the same result. -/
theorem c9_counterexample_user_similarity_case_sensitive :
    Core.user_similarity specSnapshot "Alice" "Bob" "Cosine" =
      .error "Unknown similarity metric: Cosine" ∧
    Core.user_similarity specSnapshot "Alice" "Bob" "cosine" = .ok 1 := by
  constructor
  · rw [Core.user_similarity, if_neg (by decide), if_neg (by decide)]
    exact congrArg Except.error (by decide)
  · rw [Core.user_similarity, if_pos rfl, cosine_specSnapshot_Alice_Bob]

/-- **C9 (amended).** Metric matching is case-insensitive for
`recommend_for_user` (its result depends on the metric string only through its
lowercased form, so `"Cosine"`, `"COSINE"`, … behave exactly like
`"cosine"`); `user_similarity`, by contrast, matches the metric string
exactly, so any non-lowercase spelling such as `"Cosine"` raises
`UnsupportedMetric` instead of selecting the metric. -/
theorem c9_amended_case_insensitivity_recommend_only :
    (∀ (ratings : RatingsDict) (target m1 m2 : String) (k : Option ℕ) (m : ℕ) (thr : ℝ),
      strLower m1 = strLower m2 →
      Core.recommend_for_user ratings target m1 k m thr =
        Core.recommend_for_user ratings target m2 k m thr) ∧
    (∀ (ratings : RatingsDict) (u1 u2 : String),
      Core.user_similarity ratings u1 u2 "Cosine" =
        .error "Unknown similarity metric: Cosine") := by
  constructor
  · intro ratings target m1 m2 k m thr h
    rw [Core.recommend_for_user, Core.recommend_for_user, Core._compute_similarities,
      Core._compute_similarities, Core._get_similarity_function,
      Core._get_similarity_function, h]
  · intro ratings u1 u2
    rw [Core.user_similarity, if_neg (by decide), if_neg (by decide)]
    exact congrArg Except.error (by decide)

theorem c9_amended_case_insensitivity_recommend_only_witness :
    Core.recommend_for_user specSnapshot "Alice" "COSINE" none 5 0 =
      Core.recommend_for_user specSnapshot "Alice" "cosine" none 5 0 ∧
    Core.user_similarity specSnapshot "Alice" "Bob" "Cosine" =
      .error "Unknown similarity metric: Cosine" :=
  ⟨c9_amended_case_insensitivity_recommend_only.1 specSnapshot "Alice" "COSINE" "cosine"
      none 5 0 (by decide),
   c9_amended_case_insensitivity_recommend_only.2 specSnapshot "Alice" "Bob"⟩

/-- **C6.** For every snapshot and every pair of users present in it, cosine
similarity is symmetric, and Jaccard similarity is symmetric at every
threshold. -/
theorem c6_similarity_symmetric :
    ∀ (ratings : RatingsDict) (a b : String) (thr : ℝ),
      a ∈ ratings.map Prod.fst → b ∈ ratings.map Prod.fst →
      Core.cosine_similarity ratings a b = Core.cosine_similarity ratings b a ∧
      Core.jaccard_similarity ratings a b thr = Core.jaccard_similarity ratings b a thr := by
  intro ratings a b thr _ _
  constructor
  · rw [Core.cosine_similarity, Core.cosine_similarity, Finset.inter_comm]
    simp only [mul_comm, or_comm]
  · rw [Core.jaccard_similarity, Core.jaccard_similarity]
    simp only [Finset.inter_comm, Finset.union_comm, and_comm]

theorem c6_similarity_symmetric_witness :
    Core.cosine_similarity specSnapshot "Alice" "Bob" =
      Core.cosine_similarity specSnapshot "Bob" "Alice" ∧
    Core.jaccard_similarity specSnapshot "Alice" "Bob" 0 =
      Core.jaccard_similarity specSnapshot "Bob" "Alice" 0 :=
  c6_similarity_symmetric specSnapshot "Alice" "Bob" 0 (by decide) (by decide)

lemma mem_of_lookupFst {α : Type} {l : List (String × α)} {k : String} {v : α}
    (h : lookupFst l k = some v) : (k, v) ∈ l := by
  induction l with
  | nil => simp [lookupFst] at h
  | cons p rest ih =>
    obtain ⟨pk, pv⟩ := p
    rw [lookupFst] at h
    by_cases hk : pk = k
    · rw [if_pos hk] at h
      obtain rfl := hk
      have hpv : pv = v := by injection h
      obtain rfl := hpv
      exact List.mem_cons_self _ _
    · rw [if_neg hk] at h
      exact List.mem_cons_of_mem _ (ih h)

lemma mem_keys_of_lookupFst {α : Type} {l : List (String × α)} {k : String} {v : α}
    (h : lookupFst l k = some v) : k ∈ l.map Prod.fst :=
  List.mem_map_of_mem Prod.fst (mem_of_lookupFst h)

/-- **C8.** For every snapshot and every user present in it whose item ratings
contain at least one item with a nonzero rating, the cosine similarity of the
user with itself is exactly `1`. -/
theorem c8_cosine_self_similarity_one :
    ∀ (ratings : RatingsDict) (u : String) (items : ItemRatings) (i : String) (v : ℝ),
      lookupFst ratings u = some items →
      lookupFst items i = some v → v ≠ 0 →
      Core.cosine_similarity ratings u u = 1 := by
  intro ratings u items i v hu hi hv
  have hiK : i ∈ keySet items := by
    simpa [keySet] using mem_keys_of_lookupFst hi
  have hri : ratingOf items i = v := by simp [ratingOf, hi]
  have hS : 0 < ∑ j ∈ keySet items, ratingOf items j ^ 2 := by
    refine Finset.sum_pos' (fun j _ => sq_nonneg _) ⟨i, hiK, ?_⟩
    rw [hri]
    exact pow_two_pos_of_ne_zero hv
  simp only [Core.cosine_similarity, hu, Option.getD_some, Finset.inter_self, or_self]
  rw [if_neg (Finset.ne_empty_of_mem hiK), if_neg (Real.sqrt_ne_zero'.mpr hS)]
  rw [Real.mul_self_sqrt hS.le]
  rw [show (∑ j ∈ keySet items, ratingOf items j * ratingOf items j) =
      ∑ j ∈ keySet items, ratingOf items j ^ 2 from
    Finset.sum_congr rfl (fun j _ => (pow_two _).symm)]
  exact div_self hS.ne'

theorem c8_cosine_self_similarity_one_witness :
    Core.cosine_similarity specSnapshot "Carl" "Carl" = 1 :=
  c8_cosine_self_similarity_one specSnapshot "Carl" [("b3", 1)] "b3" 1
    (by simp +decide [specSnapshot, lookupFst]) (by simp +decide [lookupFst]) one_ne_zero

lemma itemRatings_nonneg {ratings : RatingsDict}
    (hnn : ∀ p ∈ ratings, ∀ q ∈ p.2, 0 ≤ q.2) (u : String) :
    ∀ q ∈ (lookupFst ratings u).getD [], 0 ≤ q.2 := by
  cases h : lookupFst ratings u with
  | none => simp
  | some its => simpa using hnn (u, its) (mem_of_lookupFst h)

lemma ratingOf_nonneg {items : ItemRatings} (h : ∀ q ∈ items, 0 ≤ q.2) (i : String) :
    0 ≤ ratingOf items i := by
  rw [ratingOf]
  cases hl : lookupFst items i with
  | none => simp
  | some v => simpa using h (i, v) (mem_of_lookupFst hl)

lemma div_sqrt_mul_sqrt_mem_Icc (s : Finset String) (f g : String → ℝ)
    (hf : ∀ i, 0 ≤ f i) (hg : ∀ i, 0 ≤ g i)
    (hm1 : Real.sqrt (∑ i ∈ s, f i ^ 2) ≠ 0) (hm2 : Real.sqrt (∑ i ∈ s, g i ^ 2) ≠ 0) :
    0 ≤ (∑ i ∈ s, f i * g i) /
        (Real.sqrt (∑ i ∈ s, f i ^ 2) * Real.sqrt (∑ i ∈ s, g i ^ 2)) ∧
    (∑ i ∈ s, f i * g i) /
        (Real.sqrt (∑ i ∈ s, f i ^ 2) * Real.sqrt (∑ i ∈ s, g i ^ 2)) ≤ 1 := by
  have hS1 : (0:ℝ) ≤ ∑ i ∈ s, f i ^ 2 := Finset.sum_nonneg fun i _ => sq_nonneg _
  have hS2 : (0:ℝ) ≤ ∑ i ∈ s, g i ^ 2 := Finset.sum_nonneg fun i _ => sq_nonneg _
  have hm1pos : 0 < Real.sqrt (∑ i ∈ s, f i ^ 2) :=
    lt_of_le_of_ne (Real.sqrt_nonneg _) (Ne.symm hm1)
  have hm2pos : 0 < Real.sqrt (∑ i ∈ s, g i ^ 2) :=
    lt_of_le_of_ne (Real.sqrt_nonneg _) (Ne.symm hm2)
  have hdot : (0:ℝ) ≤ ∑ i ∈ s, f i * g i :=
    Finset.sum_nonneg fun i _ => mul_nonneg (hf i) (hg i)
  have hCS : (∑ i ∈ s, f i * g i) ^ 2 ≤ (∑ i ∈ s, f i ^ 2) * ∑ i ∈ s, g i ^ 2 :=
    Finset.sum_mul_sq_le_sq_mul_sq s f g
  have hle : (∑ i ∈ s, f i * g i) ≤
      Real.sqrt (∑ i ∈ s, f i ^ 2) * Real.sqrt (∑ i ∈ s, g i ^ 2) := by
    rw [← Real.sqrt_mul hS1]
    exact (Real.le_sqrt hdot (mul_nonneg hS1 hS2)).mpr hCS
  exact ⟨div_nonneg hdot (mul_nonneg hm1pos.le hm2pos.le),
    (div_le_one (mul_pos hm1pos hm2pos)).mpr hle⟩

lemma cosine_similarity_mem_Icc (ratings : RatingsDict) (a b : String)
    (hnn : ∀ p ∈ ratings, ∀ q ∈ p.2, 0 ≤ q.2) :
    0 ≤ Core.cosine_similarity ratings a b ∧ Core.cosine_similarity ratings a b ≤ 1 := by
  have hf := ratingOf_nonneg (itemRatings_nonneg hnn a)
  have hg := ratingOf_nonneg (itemRatings_nonneg hnn b)
  simp only [Core.cosine_similarity]
  split_ifs with hempty hmag
  · norm_num
  · norm_num
  · push_neg at hmag
    exact div_sqrt_mul_sqrt_mem_Icc _ _ _ hf hg hmag.1 hmag.2

lemma jaccard_similarity_mem_Icc (ratings : RatingsDict) (a b : String) (thr : ℝ) :
    0 ≤ Core.jaccard_similarity ratings a b thr ∧
    Core.jaccard_similarity ratings a b thr ≤ 1 := by
  simp only [Core.jaccard_similarity]
  split_ifs with h1 h2
  · norm_num
  · norm_num
  · have hcard : ((Core._liked_items ratings a thr ∩ Core._liked_items ratings b thr).card : ℝ) ≤
        ((Core._liked_items ratings a thr ∪ Core._liked_items ratings b thr).card : ℝ) := by
      exact_mod_cast Finset.card_le_card Finset.inter_subset_union
    have hu : (0:ℝ) <
        ((Core._liked_items ratings a thr ∪ Core._liked_items ratings b thr).card : ℝ) := by
      exact_mod_cast Nat.pos_of_ne_zero h2
    exact ⟨div_nonneg (by positivity) hu.le, (div_le_one hu).mpr hcard⟩

lemma _liked_items_subset_keySet (ratings : RatingsDict) (u : String) (thr : ℝ) :
    Core._liked_items ratings u thr ⊆ keySet ((lookupFst ratings u).getD []) := by
  intro x hx
  simp only [Core._liked_items, keySet, List.mem_toFinset, List.mem_map] at hx ⊢
  obtain ⟨p, hp, rfl⟩ := hx
  exact ⟨p, (List.mem_filter.mp hp).1, rfl⟩

/-- **C7.** For every snapshot whose ratings are all non-negative and every
pair of users, cosine and Jaccard similarity lie in `[0, 1]`; and when the two
users' item ratings share no item id, both similarities are `0`. -/
theorem c7_similarity_range_and_disjoint_zero :
    ∀ (ratings : RatingsDict) (a b : String) (thr : ℝ),
      (∀ p ∈ ratings, ∀ q ∈ p.2, 0 ≤ q.2) →
      (0 ≤ Core.cosine_similarity ratings a b ∧ Core.cosine_similarity ratings a b ≤ 1) ∧
      (0 ≤ Core.jaccard_similarity ratings a b thr ∧
        Core.jaccard_similarity ratings a b thr ≤ 1) ∧
      (keySet ((lookupFst ratings a).getD []) ∩ keySet ((lookupFst ratings b).getD []) = ∅ →
        Core.cosine_similarity ratings a b = 0 ∧
        Core.jaccard_similarity ratings a b thr = 0) := by
  intro ratings a b thr hnn
  refine ⟨cosine_similarity_mem_Icc ratings a b hnn,
    jaccard_similarity_mem_Icc ratings a b thr, ?_⟩
  intro hdisj
  constructor
  · simp only [Core.cosine_similarity]
    rw [if_pos hdisj]
  · have hsub : Core._liked_items ratings a thr ∩ Core._liked_items ratings b thr = ∅ := by
      refine Finset.subset_empty.mp ?_
      rw [← hdisj]
      exact Finset.inter_subset_inter (_liked_items_subset_keySet ratings a thr)
        (_liked_items_subset_keySet ratings b thr)
    simp only [Core.jaccard_similarity]
    split_ifs
    · rfl
    · rfl
    · rw [hsub]
      simp

theorem c7_similarity_range_and_disjoint_zero_witness :
    (0 ≤ Core.cosine_similarity specSnapshot "Alice" "Carl" ∧
      Core.cosine_similarity specSnapshot "Alice" "Carl" ≤ 1) ∧
    (0 ≤ Core.jaccard_similarity specSnapshot "Alice" "Carl" 0 ∧
      Core.jaccard_similarity specSnapshot "Alice" "Carl" 0 ≤ 1) ∧
    (Core.cosine_similarity specSnapshot "Alice" "Carl" = 0 ∧
      Core.jaccard_similarity specSnapshot "Alice" "Carl" 0 = 0) := by
  have h := c7_similarity_range_and_disjoint_zero specSnapshot "Alice" "Carl" 0
    (by
      intro p hp q hq
      simp only [specSnapshot, List.mem_cons, List.not_mem_nil, or_false] at hp
      rcases hp with rfl | rfl | rfl
      · simp only [List.mem_cons, List.not_mem_nil, or_false] at hq
        rcases hq with rfl | rfl <;> norm_num
      · simp only [List.mem_cons, List.not_mem_nil, or_false] at hq
        rcases hq with rfl | rfl | rfl <;> norm_num
      · simp only [List.mem_cons, List.not_mem_nil, or_false] at hq
        obtain rfl := hq
        norm_num)
  exact ⟨h.1, h.2.1, h.2.2 (by decide)⟩

lemma pairwise_mergeSort_desc (l : List (String × ℝ)) :
    (l.mergeSort (fun a b => decide (b.2 ≤ a.2))).Pairwise (fun x y : String × ℝ => y.2 ≤ x.2) := by
  have h := @List.sorted_mergeSort (String × ℝ) (fun a b => decide (b.2 ≤ a.2))
    (fun a b c hab hbc => by
      simp only [decide_eq_true_eq] at *
      exact le_trans hbc hab)
    (fun a b => by
      simp only [Bool.or_eq_true, decide_eq_true_eq]
      exact le_total b.2 a.2) l
  exact h.imp (by simp)

lemma mem_keys_updateAdd {l : List (String × ℝ)} {k k' : String} {v : ℝ} :
    k' ∈ (updateAdd l k v).map Prod.fst ↔ k' ∈ l.map Prod.fst ∨ k' = k := by
  induction l with
  | nil => simp [updateAdd]
  | cons p rest ih =>
    obtain ⟨pk, pv⟩ := p
    by_cases hk : pk = k
    · subst hk
      simp only [updateAdd, if_pos rfl, if_true, eq_self_iff_true, List.map_cons, List.mem_cons]
      tauto
    · simp only [updateAdd, if_neg hk, List.map_cons, List.mem_cons, ih]
      tauto

lemma nodup_keys_updateAdd {l : List (String × ℝ)} {k : String} {v : ℝ}
    (h : (l.map Prod.fst).Nodup) : ((updateAdd l k v).map Prod.fst).Nodup := by
  induction l with
  | nil => simp [updateAdd]
  | cons p rest ih =>
    obtain ⟨pk, pv⟩ := p
    simp only [List.map_cons, List.nodup_cons] at h
    by_cases hk : pk = k
    · subst hk
      simp only [updateAdd, if_pos rfl, if_true, eq_self_iff_true, List.map_cons,
        List.nodup_cons]
      exact h
    · simp only [updateAdd, if_neg hk, List.map_cons, List.nodup_cons]
      refine ⟨?_, ih h.2⟩
      intro hmem
      rcases mem_keys_updateAdd.mp hmem with hmem' | rfl
      · exact h.1 hmem'
      · exact hk rfl

lemma nodup_keys_foldl {β : Type} (g : List (String × ℝ) → β → List (String × ℝ))
    (hg : ∀ sc x, (sc.map Prod.fst).Nodup → ((g sc x).map Prod.fst).Nodup) :
    ∀ (l : List β) (init : List (String × ℝ)), (init.map Prod.fst).Nodup →
      ((l.foldl g init).map Prod.fst).Nodup := by
  intro l
  induction l with
  | nil =>
    intro init h
    simpa using h
  | cons x rest ih =>
    intro init h
    rw [List.foldl_cons]
    exact ih _ (hg init x h)

lemma not_mem_keys_foldl {β : Type} (g : List (String × ℝ) → β → List (String × ℝ))
    (item : String)
    (hg : ∀ sc x, item ∉ sc.map Prod.fst → item ∉ (g sc x).map Prod.fst) :
    ∀ (l : List β) (init : List (String × ℝ)), item ∉ init.map Prod.fst →
      item ∉ (l.foldl g init).map Prod.fst := by
  intro l
  induction l with
  | nil =>
    intro init h
    simpa using h
  | cons x rest ih =>
    intro init h
    rw [List.foldl_cons]
    exact ih _ (hg init x h)

lemma recsrc_cosine_specSnapshot_Alice_Bob :
    Recommender.cosine_similarity specSnapshot "Alice" "Bob" = 1 := by
  have hcommon : keySet ([("b1", (5:ℝ)), ("b2", 3)]) ∩
      keySet ([("b1", (5:ℝ)), ("b2", 3), ("b3", 4)]) = {"b1", "b2"} := by decide
  rw [Recommender.cosine_similarity]
  simp +decide [specSnapshot, lookupFst, hcommon, ratingOf]
  rw [if_neg]
  · rw [show ((5:ℝ) * 5 + 3 * 3) = 34 by norm_num]
    rw [Real.mul_self_sqrt (by norm_num)]
    norm_num
  · positivity

lemma recsrc_cosine_specSnapshot_Alice_Carl :
    Recommender.cosine_similarity specSnapshot "Alice" "Carl" = 0 := by
  rw [Recommender.cosine_similarity]
  simp +decide [specSnapshot, lookupFst]

lemma recsrc_recommend_specSnapshot_Alice :
    Recommender.recommend_for_user specSnapshot "Alice" "cosine" none (some 5) 0 =
      .ok [("b3", 4)] := by
  have hAB := recsrc_cosine_specSnapshot_Alice_Bob
  have hAC := recsrc_cosine_specSnapshot_Alice_Carl
  rw [Recommender.recommend_for_user, Recommender._compute_similarities,
    Recommender._get_similarity_function]
  simp only [specSnapshot] at hAB hAC
  norm_num +decide [specSnapshot, strLower, lookupFst, hAB, hAC, updateAdd,
    List.filterMap_cons, List.filterMap_nil, List.foldl_cons, List.foldl_nil]

lemma nodup_keys_recommend_scores (ratings : RatingsDict) (target : String)
    (neighbours : List (String × ℝ)) :
    ((neighbours.foldl (fun scores nb =>
        ((lookupFst ratings nb.1).getD []).foldl (fun scores ir =>
          if (lookupFst ((lookupFst ratings target).getD []) ir.1).getD 0 = 0
          then updateAdd scores ir.1 (nb.2 * ir.2)
          else scores) scores) []).map Prod.fst).Nodup := by
  refine nodup_keys_foldl _ ?_ _ [] (by simp)
  intro sc nb hsc
  refine nodup_keys_foldl _ ?_ _ sc hsc
  intro sc' ir hsc'
  split_ifs
  · exact nodup_keys_updateAdd hsc'
  · exact hsc'

/-- **C5.** Every successful `recommend_for_user` result, for the engine in
`src/core/engine.py` and for the one in `src/src/recommender/engine.py` alike,
is sorted by score in non-increasing order and contains no duplicate item ids,
and when a `max_results` bound is given the result has at most that many
entries (the core engine's `max_results` is always a number; the
src/src engine's is optional). -/
theorem c5_output_sorted_nodup_truncated :
    (∀ (ratings : RatingsDict) (target metric : String) (k : Option ℕ) (N : ℕ) (thr : ℝ)
      (out : List (String × ℝ)),
      Core.recommend_for_user ratings target metric k N thr = .ok out →
      out.Pairwise (fun x y : String × ℝ => y.2 ≤ x.2) ∧
      (out.map Prod.fst).Nodup ∧ out.length ≤ N) ∧
    (∀ (ratings : RatingsDict) (target metric : String) (k : Option ℕ) (m : Option ℕ) (thr : ℝ)
      (out : List (String × ℝ)),
      Recommender.recommend_for_user ratings target metric k m thr = .ok out →
      out.Pairwise (fun x y : String × ℝ => y.2 ≤ x.2) ∧
      (out.map Prod.fst).Nodup ∧ ∀ N, m = some N → out.length ≤ N) := by
  constructor
  · intro ratings target metric k N thr out hout
    simp only [Core.recommend_for_user] at hout
    split at hout
    · obtain rfl : ([] : List (String × ℝ)) = out := by injection hout
      simp
    · split at hout
      · simp at hout
      · split at hout
        · obtain rfl : ([] : List (String × ℝ)) = out := by injection hout
          simp
        · injection hout with hout'
          subst hout'
          refine ⟨?_, ?_, ?_⟩
          · exact (pairwise_mergeSort_desc _).sublist (List.take_sublist _ _)
          · rw [List.map_take]
            exact List.Nodup.sublist (List.take_sublist _ _)
              ((((List.mergeSort_perm _ _).map Prod.fst).nodup_iff).mpr
                (nodup_keys_recommend_scores ratings target _))
          · rw [List.length_take]
            exact min_le_left _ _
  · intro ratings target metric k m thr out hout
    simp only [Recommender.recommend_for_user] at hout
    split at hout
    · simp at hout
    · split at hout
      · simp at hout
      · split at hout
        · obtain rfl : ([] : List (String × ℝ)) = out := by injection hout
          simp
        · cases m with
          | none =>
            injection hout with hout'
            subst hout'
            refine ⟨pairwise_mergeSort_desc _, ?_, ?_⟩
            · exact (((List.mergeSort_perm _ _).map Prod.fst).nodup_iff).mpr
                (nodup_keys_recommend_scores ratings target _)
            · intro N hN
              exact Option.noConfusion hN
          | some n =>
            injection hout with hout'
            subst hout'
            refine ⟨?_, ?_, ?_⟩
            · exact (pairwise_mergeSort_desc _).sublist (List.take_sublist _ _)
            · rw [List.map_take]
              exact List.Nodup.sublist (List.take_sublist _ _)
                ((((List.mergeSort_perm _ _).map Prod.fst).nodup_iff).mpr
                  (nodup_keys_recommend_scores ratings target _))
            · intro N hN
              have hn : n = N := by injection hN
              subst hn
              rw [List.length_take]
              exact min_le_left _ _

theorem c5_output_sorted_nodup_truncated_witness :
    (([("b3", (4:ℝ))] : List (String × ℝ)).Pairwise (fun x y : String × ℝ => y.2 ≤ x.2) ∧
      (([("b3", (4:ℝ))] : List (String × ℝ)).map Prod.fst).Nodup ∧
      ([("b3", (4:ℝ))] : List (String × ℝ)).length ≤ 5) ∧
    (([("b3", (4:ℝ))] : List (String × ℝ)).Pairwise (fun x y : String × ℝ => y.2 ≤ x.2) ∧
      (([("b3", (4:ℝ))] : List (String × ℝ)).map Prod.fst).Nodup ∧
      ([("b3", (4:ℝ))] : List (String × ℝ)).length ≤ 5) := by
  have h1 := c5_output_sorted_nodup_truncated.1 specSnapshot "Alice" "cosine" none 5 0
    [("b3", 4)] recommend_specSnapshot_Alice
  have h2 := c5_output_sorted_nodup_truncated.2 specSnapshot "Alice" "cosine" none (some 5) 0
    [("b3", 4)] recsrc_recommend_specSnapshot_Alice
  exact ⟨h1, h2.1, h2.2.1, h2.2.2 5 rfl⟩

/-- **C4.** When the target user has rated an item with a strictly positive
value in the snapshot, that item never appears in a successful
`recommend_for_user` result: the aggregation only ever adds items whose target
rating is missing or exactly `0`. -/
theorem c4_no_positively_rated_item_recommended :
    ∀ (ratings : RatingsDict) (target metric : String) (k : Option ℕ) (N : ℕ) (thr : ℝ)
      (out : List (String × ℝ)) (item : String) (v : ℝ),
      Core.recommend_for_user ratings target metric k N thr = .ok out →
      lookupFst ((lookupFst ratings target).getD []) item = some v → 0 < v →
      item ∉ out.map Prod.fst := by
  intro ratings target metric k N thr out item v hout hitem hv
  have hne : (lookupFst ((lookupFst ratings target).getD []) item).getD 0 ≠ 0 := by
    rw [hitem]
    exact ne_of_gt hv
  simp only [Core.recommend_for_user] at hout
  split at hout
  · obtain rfl : ([] : List (String × ℝ)) = out := by injection hout
    simp
  · split at hout
    · simp at hout
    · split at hout
      · obtain rfl : ([] : List (String × ℝ)) = out := by injection hout
        simp
      · obtain rfl :
            ((List.foldl _ []
                (match k with
                | some k' => List.take k' _
                | none => _)).mergeSort (fun a b => decide (b.2 ≤ a.2))).take N = out := by
          injection hout
        intro hmem
        rw [List.map_take] at hmem
        have hmem2 := ((List.mergeSort_perm _ _).map Prod.fst).mem_iff.mp
          (List.mem_of_mem_take hmem)
        revert hmem2
        refine not_mem_keys_foldl _ item ?_ _ [] (by simp)
        intro sc nb hsc
        refine not_mem_keys_foldl _ item ?_ _ sc hsc
        intro sc' ir hsc'
        split_ifs with hc
        · intro hor
          rcases mem_keys_updateAdd.mp hor with hmem' | heq
          · exact hsc' hmem'
          · exact hne (by rw [heq]; exact hc)
        · exact hsc'

theorem c4_no_positively_rated_item_recommended_witness :
    "b1" ∉ (([("b3", (4:ℝ))] : List (String × ℝ)).map Prod.fst) :=
  c4_no_positively_rated_item_recommended specSnapshot "Alice" "cosine" none 5 0
    [("b3", 4)] "b1" 5 recommend_specSnapshot_Alice
    (by simp +decide [specSnapshot, lookupFst]) (by norm_num)
